import Mathlib

/-!
# spark-proxy: the HTTP handlers of `main.go`

A shallow embedding of the five request handlers registered in `main` and of
`readBody`, followed by theorems about what they answer.

Modelling conventions.

* A byte is a `Nat`; a byte slice is a `List Nat`.
* Go strings are Lean `String`s, so every string is valid UTF-8.  A path value
  that is not valid UTF-8 is outside the model: for it `protojson.Marshal`
  returns an error, which the handlers discard, and the body stays empty.
* `log.Printf` only writes to the process log and is left out.
* `protojson.Unmarshal` belongs to an external library: the handlers take it
  as the parameter `unmarshal`.
* `protojson.Marshal` belongs to the same library: its output is kept symbolic,
  as the message that was marshalled (`Written.proto`).
* A call of `make` returns, panics, or ends the process (`Outcome`).  How much
  memory the process can obtain is the parameter `mem`.
* The program has no package-level variables: the handlers share no state, and
  every request is served on a fresh `ResponseWriter`, as long as the process
  runs.
-/

namespace SparkProxy

set_option maxRecDepth 100000

/-! ## Wire messages (package `sparkproxyv1`) -/

/-- Modelled from the spec: the generated enum `pb.SparkApplicationType` is not part of
the sources; the spec lists PYTHON, SCALA, JAVA, R, UNSPECIFIED, and `UNSPECIFIED` is the
zero value. -/
inductive SparkApplicationType where
  | UNSPECIFIED
  | PYTHON
  | SCALA
  | JAVA
  | R
  deriving DecidableEq, Repr

/-- Modelled from the spec: the generated enum `pb.DeployMode` is not part of the sources;
the spec lists CLIENT, CLUSTER, UNSPECIFIED, and `UNSPECIFIED` is the zero value. -/
inductive DeployMode where
  | UNSPECIFIED
  | CLIENT
  | CLUSTER
  deriving DecidableEq, Repr

/-- Modelled from the spec: the generated enum `pb.SparkApplicationState` is not part of
the sources; the spec lists PENDING, SUBMITTED, RUNNING, COMPLETED, FAILED, UNKNOWN. -/
inductive SparkApplicationState where
  | PENDING
  | SUBMITTED
  | RUNNING
  | COMPLETED
  | FAILED
  | UNKNOWN
  deriving DecidableEq, Repr

/-- Modelled from the spec: the generated driver and executor messages are not part of the
sources; the spec calls them structured resource specifications of CPU, memory and
replica-count shape, opaque to the proxy.  The handlers only copy the pointer. -/
structure ResourceSpec where
  cpu : String
  memory : String
  replicas : Nat
  deriving DecidableEq, Repr

/-- Modelled from the spec: the generated message `pb.CreateSparkApplicationRequest` is not
part of the sources; its fields are the ones `handleCreateApplication` reads.  A nil message
pointer is `none`, a nil slice or map is the empty list. -/
structure CreateSparkApplicationRequest where
  name : String := ""
  type : SparkApplicationType := .UNSPECIFIED
  mode : DeployMode := .UNSPECIFIED
  image : String := ""
  mainApplicationFile : String := ""
  mainClass : String := ""
  arguments : List String := []
  driver : Option ResourceSpec := none
  executor : Option ResourceSpec := none
  deps : List String := []
  sparkConf : List (String × String) := []
  sparkVersion : String := ""
  deriving DecidableEq, Repr

/-- Modelled from the spec: the generated message `pb.SparkApplication` is not part of the
sources; its fields are the ones the handlers set.  Every literal in `main.go` sets `State`,
fields left out of a literal take the zero value. -/
structure SparkApplication where
  id : String := ""
  name : String := ""
  namespace_ : String := ""
  type : SparkApplicationType := .UNSPECIFIED
  mode : DeployMode := .UNSPECIFIED
  image : String := ""
  mainApplicationFile : String := ""
  mainClass : String := ""
  arguments : List String := []
  driver : Option ResourceSpec := none
  executor : Option ResourceSpec := none
  deps : List String := []
  sparkConf : List (String × String) := []
  sparkVersion : String := ""
  state : SparkApplicationState
  deriving DecidableEq, Repr

/-- Modelled from the spec: the generated message `pb.ListSparkApplicationsResponse` is not
part of the sources; it carries the sequence of applications. -/
structure ListSparkApplicationsResponse where
  applications : List SparkApplication
  deriving DecidableEq, Repr

/-- The three message types the handlers marshal (`pb.Empty` has no field). -/
inductive Message where
  | sparkApplication (a : SparkApplication)
  | listResponse (l : ListSparkApplicationsResponse)
  | empty
  deriving DecidableEq, Repr

/-! ## `net/http`: request, body reader, response writer -/

/-- The request body as an `io.Reader`, seen through its first `Read`: `read cap` is the
byte sequence that the first `Read` into a buffer of length `cap` delivers, never longer than
the buffer.  `Read` stores these bytes at the front of the buffer and leaves the rest of it
as it was, as the body readers of `net/http` do. -/
structure Body where
  read : Nat → List Nat
  read_le : ∀ cap, (read cap).length ≤ cap

/-- The fields of `*http.Request` that the handlers use. -/
structure Request where
  method : String
  path : String
  pathValues : List (String × String)
  body : Option Body
  contentLength : Int

/-- `r.PathValue(name)`: the value of the path wildcard, or the empty string. -/
def Request.PathValue (r : Request) (name : String) : String :=
  (r.pathValues.lookup name).getD ""

/-- One argument of `w.Write`: literal text, or the JSON encoding of a message. -/
inductive Written where
  | raw (s : String)
  | proto (m : Message)
  deriving DecidableEq, Repr

/-- The `http.ResponseWriter`: the header map, and what has been sent so far.  `status` is
`none` until the status line is written; `sentHeader` is the header map at that moment. -/
structure ResponseWriter where
  header : List (String × String)
  status : Option Nat
  sentHeader : List (String × String)
  body : List Written
  deriving DecidableEq, Repr

/-- The writer a handler is called with. -/
def ResponseWriter.fresh : ResponseWriter :=
  { header := [], status := none, sentHeader := [], body := [] }

/-- `w.Header().Del(key)`. -/
def ResponseWriter.headerDel (w : ResponseWriter) (key : String) : ResponseWriter :=
  { w with header := w.header.filter (fun kv => kv.1 != key) }

/-- `w.Header().Set(key, value)`: replaces whatever the key held. -/
def ResponseWriter.headerSet (w : ResponseWriter) (key value : String) : ResponseWriter :=
  { w with header := w.header.filter (fun kv => kv.1 != key) ++ [(key, value)] }

/-- `w.WriteHeader(code)`: sends status line and headers, once. -/
def ResponseWriter.WriteHeader (w : ResponseWriter) (code : Nat) : ResponseWriter :=
  match w.status with
  | some _ => w
  | none => { w with status := some code, sentHeader := w.header }

/-- `w.Write(data)`: sends an implicit `WriteHeader(200)` first when nothing was sent. -/
def ResponseWriter.Write (w : ResponseWriter) (data : Written) : ResponseWriter :=
  let w1 := w.WriteHeader 200
  { w1 with body := w1.body ++ [data] }

/-- `http.Error(w, error, code)` of the standard library: plain-text content type, the
status code, then the error text and a newline. -/
def httpError (w : ResponseWriter) (error : String) (code : Nat) : ResponseWriter :=
  let w1 := w.headerDel "Content-Length"
  let w2 := w1.headerSet "Content-Type" "text/plain; charset=utf-8"
  let w3 := w2.headerSet "X-Content-Type-Options" "nosniff"
  let w4 := w3.WriteHeader code
  w4.Write (.raw (error ++ "\n"))

def StatusOK : Nat := 200
def StatusCreated : Nat := 201
def StatusBadRequest : Nat := 400
def StatusNotFound : Nat := 404
/-- The `Content-Type` header of the response as sent. -/
def ResponseWriter.contentType (w : ResponseWriter) : Option String :=
  w.sentHeader.lookup "Content-Type"

/-- The `SparkApplication` a response carries, when its body is exactly one. -/
def ResponseWriter.application (w : ResponseWriter) : Option SparkApplication :=
  match w.body with
  | [.proto (.sparkApplication a)] => some a
  | _ => none

/-- The application sequence a response carries, when its body is a list response. -/
def ResponseWriter.applications (w : ResponseWriter) : Option (List SparkApplication) :=
  match w.body with
  | [.proto (.listResponse l)] => some l.applications
  | _ => none

/-! ## `main.go` -/

/-- The built-in `copy(dst, src)` for `src` no longer than `dst`: the bytes of `src`
overwrite the front of `dst`. -/
def copyInto (dst src : List Nat) : List Nat :=
  src ++ dst.drop src.length

/-- How a call that may not return ends: it returns a value, it panics (the server recovers
the panic of a handler, writes no response and goes on serving), or the process dies with a
fatal error (nothing is served any more). -/
inductive Outcome (α : Type) where
  | ok (a : α)
  | panic
  | fatal
  deriving DecidableEq, Repr

/-- The value returned, if any. -/
def Outcome.toOption {α : Type} : Outcome α → Option α
  | .ok a => some a
  | .panic => none
  | .fatal => none

/-- The process is dead after the call. -/
def Outcome.isFatal {α : Type} : Outcome α → Bool
  | .fatal => true
  | _ => false

/-- The largest length `make([]byte, n)` accepts, `maxAlloc` of the Go runtime: `2^48` on
the 64-bit platforms, less elsewhere.  On a larger `n`, as on a negative one, `make` panics
with `makeslice: len out of range`. -/
def maxAlloc : Nat := 2 ^ 48

/-- `make([]byte, n)` for an `int64` length, in a process that can obtain `mem` bytes: a
panic on a length that is negative or larger than `maxAlloc`, the fatal error
`out of memory` on a length the process cannot obtain, a zeroed slice otherwise. -/
def makeBytes (mem : Nat) (n : Int) : Outcome (List Nat) :=
  if n < 0 ∨ (maxAlloc : Int) < n then .panic
  else if (mem : Int) < n then .fatal
  else .ok (List.replicate n.toNat 0)

/-- `readBody`: nil body gives the empty slice; otherwise a zeroed buffer of `ContentLength`
bytes is allocated and a single `Read` fills its front.  The results of `Read` and `Close`
are ignored, as in the source. -/
def readBody (mem : Nat) (r : Request) : Outcome (List Nat) :=
  match r.body with
  | none => .ok []
  | some b =>
    match makeBytes mem r.contentLength with
    | .panic => .panic
    | .fatal => .fatal
    | .ok data => .ok (copyInto data (b.read data.length))

/-- `handleHealth`. -/
def handleHealth (w : ResponseWriter) (_r : Request) : ResponseWriter :=
  let w1 := w.headerSet "Content-Type" "application/json"
  w1.Write (.raw "\x7b\"status\":\"ok\"\x7d")

/-- The response literal of `handleCreateApplication`. -/
def createResponse (ns : String) (req : CreateSparkApplicationRequest) :
    SparkApplication :=
  { id := "spark-app-12345"
    name := req.name
    namespace_ := ns
    type := req.type
    mode := req.mode
    image := req.image
    mainApplicationFile := req.mainApplicationFile
    mainClass := req.mainClass
    arguments := req.arguments
    driver := req.driver
    executor := req.executor
    deps := req.deps
    sparkConf := req.sparkConf
    sparkVersion := req.sparkVersion
    state := .PENDING }

/-- `handleCreateApplication`; it does not return when `readBody` does not. -/
def handleCreateApplication (mem : Nat)
    (unmarshal : List Nat → Except String CreateSparkApplicationRequest)
    (w : ResponseWriter) (r : Request) : Outcome ResponseWriter :=
  let ns := r.PathValue "namespace"
  match readBody mem r with
  | .panic => .panic
  | .fatal => .fatal
  | .ok data =>
    match unmarshal data with
    | .error err => .ok (httpError w err StatusBadRequest)
    | .ok req =>
      let resp := createResponse ns req
      let w1 := w.headerSet "Content-Type" "application/json"
      let w2 := w1.WriteHeader StatusCreated
      .ok (w2.Write (.proto (.sparkApplication resp)))

/-- The response literal of `handleListApplications`. -/
def listResponse (ns : String) : ListSparkApplicationsResponse :=
  { applications :=
      [ { id := "spark-app-001"
          name := "spark-job-1"
          namespace_ := ns
          type := .PYTHON
          mode := .CLUSTER
          state := .COMPLETED },
        { id := "spark-app-002"
          name := "spark-job-2"
          namespace_ := ns
          type := .SCALA
          mode := .CLUSTER
          state := .RUNNING } ] }

/-- `handleListApplications`. -/
def handleListApplications (w : ResponseWriter) (r : Request) : ResponseWriter :=
  let ns := r.PathValue "namespace"
  let resp := listResponse ns
  let w1 := w.headerSet "Content-Type" "application/json"
  w1.Write (.proto (.listResponse resp))

/-- The response literal of `handleGetApplication`. -/
def getResponse (ns name : String) : SparkApplication :=
  { id := "spark-app-12345"
    name := name
    namespace_ := ns
    type := .PYTHON
    mode := .CLUSTER
    image := "spark:3.5.0"
    mainApplicationFile := "local:///opt/spark/examples/src/main/python/pi.py"
    state := .RUNNING
    sparkVersion := "3.5.0" }

/-- `handleGetApplication`. -/
def handleGetApplication (w : ResponseWriter) (r : Request) : ResponseWriter :=
  let ns := r.PathValue "namespace"
  let name := r.PathValue "name"
  let resp := getResponse ns name
  let w1 := w.headerSet "Content-Type" "application/json"
  w1.Write (.proto (.sparkApplication resp))

/-- `handleDeleteApplication`. -/
def handleDeleteApplication (w : ResponseWriter) (_r : Request) : ResponseWriter :=
  let w1 := w.headerSet "Content-Type" "application/json"
  w1.Write (.proto .empty)

/-- One of the five routes registered in `main`, with the request it received. -/
inductive Call where
  | health (r : Request)
  | create (r : Request)
  | list (r : Request)
  | get (r : Request)
  | delete (r : Request)

/-- The server calls the registered handler on a fresh writer. -/
def dispatch (mem : Nat)
    (unmarshal : List Nat → Except String CreateSparkApplicationRequest) :
    Call → Outcome ResponseWriter
  | .health r => .ok (handleHealth ResponseWriter.fresh r)
  | .create r => handleCreateApplication mem unmarshal ResponseWriter.fresh r
  | .list r => .ok (handleListApplications ResponseWriter.fresh r)
  | .get r => .ok (handleGetApplication ResponseWriter.fresh r)
  | .delete r => .ok (handleDeleteApplication ResponseWriter.fresh r)

/-- Requests handled one after the other, with the outcome of each.  No handler reads or
writes anything that outlives its call, so each outcome is that of the single call; a call
that ends the process is the last one handled. -/
def serve (mem : Nat)
    (unmarshal : List Nat → Except String CreateSparkApplicationRequest) :
    List Call → List (Outcome ResponseWriter)
  | [] => []
  | c :: cs =>
    match dispatch mem unmarshal c with
    | .fatal => [.fatal]
    | .panic => .panic :: serve mem unmarshal cs
    | .ok w => .ok w :: serve mem unmarshal cs

/-- The process is still running after the calls: none of them ended it. -/
def survives (mem : Nat)
    (unmarshal : List Nat → Except String CreateSparkApplicationRequest)
    (calls : List Call) : Bool :=
  calls.all (fun c => !(dispatch mem unmarshal c).isFatal)

/-- The call takes the branch `err != nil` of `handleCreateApplication`: the body was read
and `protojson.Unmarshal` rejected it. -/
def decodeFails (mem : Nat)
    (unmarshal : List Nat → Except String CreateSparkApplicationRequest) :
    Call → Bool
  | .create r =>
    match readBody mem r with
    | .panic => false
    | .fatal => false
    | .ok data =>
      match unmarshal data with
      | .error _ => true
      | .ok _ => false
  | _ => false

/-! ## Sample requests -/

/-- ASCII text as bytes. -/
def bytesOf (s : String) : List Nat :=
  s.toList.map Char.toNat

/-- A body whose first `Read` delivers as much of `bs` as the buffer holds. -/
def Body.ofBytes (bs : List Nat) : Body :=
  { read := fun cap => bs.take cap
    read_le := fun cap => List.length_take_le cap bs }

/-- A body of text `bs` that arrives in pieces: the first `Read` delivers the first `k`
bytes at most, the rest is left for later reads. -/
def Body.inPieces (k : Nat) (bs : List Nat) : Body :=
  { read := fun cap => (bs.take k).take cap
    read_le := fun cap => List.length_take_le cap (bs.take k) }

/-- Memory of the sample process: 1 GiB. -/
def sampleMem : Nat := 2 ^ 30

/-- JSON text of a Python application named `pi`; `mode` is left out. -/
def piJSON : String :=
  "\x7b\"name\":\"pi\",\"type\":\"SPARK_APPLICATION_TYPE_PYTHON\",\"mainApplicationFile\":\"local:///pi.py\"\x7d"

/-- The message `piJSON` decodes to. -/
def piRequest : CreateSparkApplicationRequest :=
  { name := "pi", type := .PYTHON, mainApplicationFile := "local:///pi.py" }

/-- JSON text of a Scala application named `wc` in client mode. -/
def wcJSON : String :=
  "\x7b\"name\":\"wc\",\"type\":\"SPARK_APPLICATION_TYPE_SCALA\",\"mode\":\"DEPLOY_MODE_CLIENT\",\"mainApplicationFile\":\"local:///wc.jar\",\"mainClass\":\"WordCount\"\x7d"

/-- The message `wcJSON` decodes to. -/
def wcRequest : CreateSparkApplicationRequest :=
  { name := "wc", type := .SCALA, mode := .CLIENT, mainApplicationFile := "local:///wc.jar",
    mainClass := "WordCount" }

/-- JSON text of the empty object: every field of the message is unset. -/
def emptyJSON : String :=
  "\x7b\x7d"

/-- A decoder defined on the three sample bodies; any other body is a syntax error. -/
def sampleUnmarshal (data : List Nat) : Except String CreateSparkApplicationRequest :=
  if data = bytesOf piJSON then .ok piRequest
  else if data = bytesOf wcJSON then .ok wcRequest
  else if data = bytesOf emptyJSON then .ok {}
  else .error "proto: syntax error"

/-- A POST to `/api/v1/namespaces/{namespace}/applications` with the given body text and a
matching `Content-Length`. -/
def postApplication (ns body : String) : Request :=
  { method := "POST"
    path := "/api/v1/namespaces/" ++ ns ++ "/applications"
    pathValues := [("namespace", ns)]
    body := some (Body.ofBytes (bytesOf body))
    contentLength := (bytesOf body).length }

/-- The same POST sent with `Transfer-Encoding: chunked`: the server sets `ContentLength`
to -1, the length being unknown. -/
def chunkedPost (ns body : String) : Request :=
  { method := "POST"
    path := "/api/v1/namespaces/" ++ ns ++ "/applications"
    pathValues := [("namespace", ns)]
    body := some (Body.ofBytes (bytesOf body))
    contentLength := -1 }

/-- The same POST with a matching `Content-Length`, whose body arrives in pieces of `k`
bytes. -/
def piecewisePost (ns body : String) (k : Nat) : Request :=
  { method := "POST"
    path := "/api/v1/namespaces/" ++ ns ++ "/applications"
    pathValues := [("namespace", ns)]
    body := some (Body.inPieces k (bytesOf body))
    contentLength := (bytesOf body).length }

/-- A request without body text on `/api/v1/namespaces/{namespace}/applications`. -/
def collectionRequest (method ns : String) : Request :=
  { method := method
    path := "/api/v1/namespaces/" ++ ns ++ "/applications"
    pathValues := [("namespace", ns)]
    body := some (Body.ofBytes [])
    contentLength := 0 }

/-- A request without body text on `/api/v1/namespaces/{namespace}/applications/{name}`. -/
def itemRequest (method ns name : String) : Request :=
  { method := method
    path := "/api/v1/namespaces/" ++ ns ++ "/applications/" ++ name
    pathValues := [("namespace", ns), ("name", name)]
    body := some (Body.ofBytes [])
    contentLength := 0 }

/-! ## What one call answers -/

/-- The writer after the JSON answer of a handler: header set, status sent, one write. -/
def jsonAnswer (code : Nat) (data : Written) : ResponseWriter :=
  { header := [("Content-Type", "application/json")]
    status := some code
    sentHeader := [("Content-Type", "application/json")]
    body := [data] }

theorem copyInto_replicate (n : Nat) (src : List Nat) :
    copyInto (List.replicate n 0) src = src ++ List.replicate (n - src.length) 0 := by
  simp [copyInto, List.drop_replicate]

theorem makeBytes_of_le (mem : Nat) (n : Int) (h0 : 0 ≤ n) (hmax : n ≤ (maxAlloc : Int))
    (hmem : n ≤ (mem : Int)) :
    makeBytes mem n = .ok (List.replicate n.toNat 0) := by
  have hcond : ¬ (n < 0 ∨ (maxAlloc : Int) < n) := by
    rintro (h | h)
    · exact absurd h (not_lt.mpr h0)
    · exact absurd h (not_lt.mpr hmax)
  simp only [makeBytes, if_neg hcond, if_neg (not_lt.mpr hmem)]

theorem handleHealth_eq (r : Request) :
    handleHealth ResponseWriter.fresh r
      = jsonAnswer 200 (.raw "\x7b\"status\":\"ok\"\x7d") := by
  rfl

theorem handleListApplications_eq (r : Request) :
    handleListApplications ResponseWriter.fresh r
      = jsonAnswer 200 (.proto (.listResponse (listResponse (r.PathValue "namespace")))) := by
  rfl

theorem handleGetApplication_eq (r : Request) :
    handleGetApplication ResponseWriter.fresh r
      = jsonAnswer 200 (.proto (.sparkApplication
          (getResponse (r.PathValue "namespace") (r.PathValue "name")))) := by
  rfl

theorem handleDeleteApplication_eq (r : Request) :
    handleDeleteApplication ResponseWriter.fresh r = jsonAnswer 200 (.proto .empty) := by
  rfl

theorem handleCreateApplication_ok (mem : Nat)
    (unmarshal : List Nat → Except String CreateSparkApplicationRequest)
    (r : Request) (data : List Nat) (req : CreateSparkApplicationRequest)
    (hbody : readBody mem r = .ok data) (hreq : unmarshal data = .ok req) :
    handleCreateApplication mem unmarshal ResponseWriter.fresh r
      = .ok (jsonAnswer 201 (.proto (.sparkApplication
          (createResponse (r.PathValue "namespace") req)))) := by
  simp only [handleCreateApplication, hbody, hreq]
  rfl

theorem handleCreateApplication_error (mem : Nat)
    (unmarshal : List Nat → Except String CreateSparkApplicationRequest)
    (r : Request) (data : List Nat) (err : String)
    (hbody : readBody mem r = .ok data) (hreq : unmarshal data = .error err) :
    handleCreateApplication mem unmarshal ResponseWriter.fresh r
      = .ok { header := [("Content-Type", "text/plain; charset=utf-8"),
                         ("X-Content-Type-Options", "nosniff")]
              status := some 400
              sentHeader := [("Content-Type", "text/plain; charset=utf-8"),
                             ("X-Content-Type-Options", "nosniff")]
              body := [.raw (err ++ "\n")] } := by
  simp only [handleCreateApplication, hbody, hreq]
  rfl

theorem serve_append (mem : Nat)
    (unmarshal : List Nat → Except String CreateSparkApplicationRequest)
    (xs ys : List Call) :
    serve mem unmarshal (xs ++ ys)
      = serve mem unmarshal xs
          ++ (if survives mem unmarshal xs then serve mem unmarshal ys else []) := by
  induction xs with
  | nil => simp [serve, survives]
  | cons c cs ih =>
    have hs : survives mem unmarshal (c :: cs)
        = (!(dispatch mem unmarshal c).isFatal && survives mem unmarshal cs) := by
      simp [survives]
    cases h : dispatch mem unmarshal c with
    | ok w => simp [serve, h, hs, Outcome.isFatal, ih]
    | panic => simp [serve, h, hs, Outcome.isFatal, ih]
    | fatal => simp [serve, h, hs, Outcome.isFatal]

theorem serve_append_single (mem : Nat)
    (unmarshal : List Nat → Except String CreateSparkApplicationRequest)
    (xs : List Call) (c : Call) (w : ResponseWriter)
    (h : dispatch mem unmarshal c = .ok w) :
    serve mem unmarshal (xs ++ [c])
      = serve mem unmarshal xs ++ (if survives mem unmarshal xs then [.ok w] else []) := by
  rw [serve_append]
  simp [serve, h]

theorem createResponse_id_ne_empty (ns : String) (req : CreateSparkApplicationRequest) :
    (createResponse ns req).id ≠ "" := by
  simp [createResponse]

/-! ## The create handler -/

/-- Where `readBody` returns bytes that `protojson.Unmarshal` accepts,
`handleCreateApplication` answers 201 with a SparkApplication in state PENDING, with a
non-empty id, with the path namespace, and with every other field equal to the field of the
decoded request. -/
theorem handleCreateApplication_created (mem : Nat)
    (unmarshal : List Nat → Except String CreateSparkApplicationRequest)
    (r : Request) (data : List Nat) (req : CreateSparkApplicationRequest)
    (hbody : readBody mem r = .ok data) (hreq : unmarshal data = .ok req) :
    ∃ w a, handleCreateApplication mem unmarshal ResponseWriter.fresh r = .ok w
      ∧ w.status = some StatusCreated
      ∧ w.application = some a
      ∧ a.state = .PENDING
      ∧ a.id ≠ ""
      ∧ a.namespace_ = r.PathValue "namespace"
      ∧ a.name = req.name
      ∧ a.type = req.type
      ∧ a.mode = req.mode
      ∧ a.image = req.image
      ∧ a.mainApplicationFile = req.mainApplicationFile
      ∧ a.mainClass = req.mainClass
      ∧ a.arguments = req.arguments
      ∧ a.driver = req.driver
      ∧ a.executor = req.executor
      ∧ a.deps = req.deps
      ∧ a.sparkConf = req.sparkConf
      ∧ a.sparkVersion = req.sparkVersion := by
  refine ⟨_, createResponse (r.PathValue "namespace") req,
    handleCreateApplication_ok mem unmarshal r data req hbody hreq, rfl, rfl, rfl,
    createResponse_id_ne_empty _ _, rfl, rfl, rfl, rfl, rfl, rfl, rfl, rfl, rfl, rfl, rfl,
    rfl, rfl⟩

/-- C1 fails on the code: the JSON text of the sample `pi` decodes into a request, yet
posted to namespace `default` with chunked transfer encoding (ContentLength -1) it makes
`readBody` panic in `make`, and no response is written; posted with its Content-Length of
91 while the first `Read` delivers 40 bytes, it reaches the decoder cut and zero-padded and
is answered 400.  Neither is the 201 of the claim. -/
theorem create_decodable_body_not_created :
    sampleUnmarshal (bytesOf piJSON) = .ok piRequest
      ∧ handleCreateApplication sampleMem sampleUnmarshal ResponseWriter.fresh
          (chunkedPost "default" piJSON) = .panic
      ∧ (bytesOf piJSON).length = 91
      ∧ readBody sampleMem (piecewisePost "default" piJSON 40)
          = .ok ((bytesOf piJSON).take 40 ++ List.replicate 51 0)
      ∧ (handleCreateApplication sampleMem sampleUnmarshal ResponseWriter.fresh
            (piecewisePost "default" piJSON 40)).toOption.map
          (fun w => (w.status, w.application))
        = some (some StatusBadRequest, none) :=
  ⟨rfl, rfl, rfl, rfl, rfl⟩

/-- C7, as the code behaves: a create request whose body decodes with mode
DEPLOY_MODE_UNSPECIFIED is answered 201 with a SparkApplication whose mode is
DEPLOY_MODE_UNSPECIFIED: the mode of the request is copied, no default is applied. -/
theorem create_unset_mode_unspecified (mem : Nat)
    (unmarshal : List Nat → Except String CreateSparkApplicationRequest)
    (r : Request) (data : List Nat) (req : CreateSparkApplicationRequest)
    (hbody : readBody mem r = .ok data) (hreq : unmarshal data = .ok req)
    (hmode : req.mode = .UNSPECIFIED) :
    ∃ w a, handleCreateApplication mem unmarshal ResponseWriter.fresh r = .ok w
      ∧ w.status = some StatusCreated
      ∧ w.application = some a
      ∧ a.mode = .UNSPECIFIED := by
  refine ⟨_, createResponse (r.PathValue "namespace") req,
    handleCreateApplication_ok mem unmarshal r data req hbody hreq, rfl, rfl, ?_⟩
  simp [createResponse, hmode]

/-- The theorem `create_unset_mode_unspecified` at the sample `pi`, whose JSON text has no
mode. -/
theorem create_unset_mode_unspecified_witness :
    readBody sampleMem (postApplication "default" piJSON) = .ok (bytesOf piJSON)
      ∧ sampleUnmarshal (bytesOf piJSON) = .ok piRequest
      ∧ piRequest.mode = .UNSPECIFIED
      ∧ ∃ w a, handleCreateApplication sampleMem sampleUnmarshal ResponseWriter.fresh
            (postApplication "default" piJSON) = .ok w
          ∧ w.status = some StatusCreated
          ∧ w.application = some a
          ∧ a.mode = .UNSPECIFIED :=
  ⟨rfl, rfl, rfl, create_unset_mode_unspecified sampleMem sampleUnmarshal
    (postApplication "default" piJSON) (bytesOf piJSON) piRequest rfl rfl rfl⟩

/-- C7 fails on the code: the sample `pi` is a valid request whose mode is unset; the
SparkApplication returned for it has mode DEPLOY_MODE_UNSPECIFIED, which is not CLUSTER. -/
theorem create_unset_mode_not_cluster :
    piRequest.mode = .UNSPECIFIED
      ∧ (dispatch sampleMem sampleUnmarshal
            (.create (postApplication "default" piJSON))).toOption.bind
          (fun w => w.application.map (fun a => (w.status, a.mode)))
        = some (some StatusCreated, DeployMode.UNSPECIFIED)
      ∧ DeployMode.UNSPECIFIED ≠ DeployMode.CLUSTER :=
  ⟨rfl, rfl, by decide⟩

/-! ## The get, delete and list handlers -/

/-- C4, as the code behaves: for every namespace and name that are valid UTF-8 (the strings
of the model), and whatever calls were handled before, creates included,
`handleGetApplication` answers 200 with a SparkApplication that has the name and namespace
of the path and otherwise fixed values: id `spark-app-12345`, type PYTHON, mode CLUSTER,
image `spark:3.5.0`, the `pi.py` example as mainApplicationFile, sparkVersion `3.5.0`, state
RUNNING, and empty mainClass, arguments, driver, executor, deps and sparkConf.  (In the
sequence of outcomes the answer is there unless an earlier call ended the process.) -/
theorem get_answers_fixed_application (mem : Nat)
    (unmarshal : List Nat → Except String CreateSparkApplicationRequest)
    (before : List Call) (r : Request) :
    ∃ w a, dispatch mem unmarshal (.get r) = .ok w
      ∧ serve mem unmarshal (before ++ [.get r])
        = serve mem unmarshal before
            ++ (if survives mem unmarshal before then [.ok w] else [])
      ∧ w.status = some StatusOK
      ∧ w.application = some a
      ∧ a.name = r.PathValue "name"
      ∧ a.namespace_ = r.PathValue "namespace"
      ∧ a.id = "spark-app-12345"
      ∧ a.type = .PYTHON
      ∧ a.mode = .CLUSTER
      ∧ a.image = "spark:3.5.0"
      ∧ a.mainApplicationFile = "local:///opt/spark/examples/src/main/python/pi.py"
      ∧ a.mainClass = ""
      ∧ a.arguments = []
      ∧ a.driver = none
      ∧ a.executor = none
      ∧ a.deps = []
      ∧ a.sparkConf = []
      ∧ a.sparkVersion = "3.5.0"
      ∧ a.state = .RUNNING := by
  have h : dispatch mem unmarshal (.get r) = .ok (jsonAnswer 200 (.proto (.sparkApplication
      (getResponse (r.PathValue "namespace") (r.PathValue "name"))))) := by
    simp only [dispatch, handleGetApplication_eq]
  exact ⟨_, getResponse (r.PathValue "namespace") (r.PathValue "name"), h,
    serve_append_single mem unmarshal before _ _ h, rfl, rfl, rfl, rfl, rfl,
    rfl, rfl, rfl, rfl, rfl, rfl, rfl, rfl, rfl, rfl, rfl, rfl⟩

/-- C4 fails on the code: the sample `wc` (Scala, client mode, `wc.jar`, class `WordCount`)
is created in namespace `default` and echoed by the create; the get of `default/wc` that
follows returns type PYTHON, mode CLUSTER, the `pi.py` file, no main class and state
RUNNING. -/
theorem get_after_create_differs :
    (serve sampleMem sampleUnmarshal [.create (postApplication "default" wcJSON),
          .get (itemRequest "GET" "default" "wc")]).map
        (fun o => o.toOption.bind (fun w => w.application.map
          (fun a => (a.name, a.type, a.mode, a.mainApplicationFile, a.mainClass, a.state))))
      = [some ("wc", .SCALA, .CLIENT, "local:///wc.jar", "WordCount", .PENDING),
         some ("wc", .PYTHON, .CLUSTER, "local:///opt/spark/examples/src/main/python/pi.py",
           "", .RUNNING)] :=
  rfl

/-- C5, as the code behaves: whatever calls were handled before, `handleDeleteApplication`
answers 200 with an Empty message, also for a key that was never created and for a key
that was just deleted; it never answers 404.  (In the sequence of outcomes the answer is
there unless an earlier call ended the process.) -/
theorem delete_answers_ok (mem : Nat)
    (unmarshal : List Nat → Except String CreateSparkApplicationRequest)
    (before : List Call) (r : Request) :
    ∃ w, dispatch mem unmarshal (.delete r) = .ok w
      ∧ serve mem unmarshal (before ++ [.delete r])
        = serve mem unmarshal before
            ++ (if survives mem unmarshal before then [.ok w] else [])
      ∧ w.status = some StatusOK
      ∧ w.status ≠ some StatusNotFound
      ∧ w.body = [.proto .empty] := by
  have h : dispatch mem unmarshal (.delete r) = .ok (jsonAnswer 200 (.proto .empty)) := by
    simp only [dispatch, handleDeleteApplication_eq]
  refine ⟨_, h, serve_append_single mem unmarshal before _ _ h, rfl, ?_, rfl⟩
  simp [jsonAnswer, StatusNotFound]

/-- C5 fails on the code: on a server that has created nothing, `default/pi` is deleted
twice; both deletes are answered 200 with an Empty message, and 200 is not 404. -/
theorem delete_missing_not_notfound :
    (serve sampleMem sampleUnmarshal [.delete (itemRequest "DELETE" "default" "pi"),
          .delete (itemRequest "DELETE" "default" "pi")]).map
        (fun o => o.toOption.map (fun w => (w.status, w.body)))
      = [some (some StatusOK, [.proto .empty]), some (some StatusOK, [.proto .empty])]
      ∧ StatusOK ≠ StatusNotFound :=
  ⟨rfl, by decide⟩

/-- C8, as the code behaves: for every namespace that is valid UTF-8 (the strings of the
model), and whatever calls were handled before, `handleListApplications` answers 200 with
the same two applications, `spark-job-1` (Python, cluster, COMPLETED, id `spark-app-001`)
and `spark-job-2` (Scala, cluster, RUNNING, id `spark-app-002`), both labelled with the
namespace of the path; the sequence is not empty.  (In the sequence of outcomes the answer
is there unless an earlier call ended the process.) -/
theorem list_answers_fixed_applications (mem : Nat)
    (unmarshal : List Nat → Except String CreateSparkApplicationRequest)
    (before : List Call) (r : Request) :
    ∃ w, dispatch mem unmarshal (.list r) = .ok w
      ∧ serve mem unmarshal (before ++ [.list r])
        = serve mem unmarshal before
            ++ (if survives mem unmarshal before then [.ok w] else [])
      ∧ w.status = some StatusOK
      ∧ w.applications = some
          [ { id := "spark-app-001", name := "spark-job-1",
              namespace_ := r.PathValue "namespace", type := .PYTHON, mode := .CLUSTER,
              state := .COMPLETED },
            { id := "spark-app-002", name := "spark-job-2",
              namespace_ := r.PathValue "namespace", type := .SCALA, mode := .CLUSTER,
              state := .RUNNING } ]
      ∧ w.applications ≠ some [] := by
  have h : dispatch mem unmarshal (.list r) = .ok (jsonAnswer 200
      (.proto (.listResponse (listResponse (r.PathValue "namespace"))))) := by
    simp only [dispatch, handleListApplications_eq]
  refine ⟨_, h, serve_append_single mem unmarshal before _ _ h, rfl, rfl, ?_⟩
  simp [jsonAnswer, ResponseWriter.applications, listResponse]

/-- C8 fails on the code: on a server that has created nothing, the list of namespace
`default` is answered 200 with two applications, not with the empty sequence. -/
theorem list_empty_namespace_not_empty :
    (serve sampleMem sampleUnmarshal [.list (collectionRequest "GET" "default")]).map
        (fun o => o.toOption.bind (fun w => w.applications.map
          (fun l => (w.status, l.map (fun a => (a.namespace_, a.name))))))
      = [some (some StatusOK, [("default", "spark-job-1"), ("default", "spark-job-2")])] :=
  rfl

/-! ## Content type -/

/-- C9, as the code behaves: every response of the five handlers has Content-Type
`application/json`, except the one written when `handleCreateApplication` fails to decode
the body: that one is written by `http.Error`, with status 400 and Content-Type
`text/plain; charset=utf-8`. -/
theorem content_type_json_unless_decode_fails (mem : Nat)
    (unmarshal : List Nat → Except String CreateSparkApplicationRequest)
    (c : Call) (w : ResponseWriter) (h : dispatch mem unmarshal c = .ok w) :
    (decodeFails mem unmarshal c = false ∧ w.contentType = some "application/json")
      ∨ (decodeFails mem unmarshal c = true ∧ w.status = some StatusBadRequest
          ∧ w.contentType = some "text/plain; charset=utf-8") := by
  cases c with
  | health r =>
    simp only [dispatch, handleHealth_eq, Outcome.ok.injEq] at h
    subst h
    exact Or.inl ⟨rfl, rfl⟩
  | list r =>
    simp only [dispatch, handleListApplications_eq, Outcome.ok.injEq] at h
    subst h
    exact Or.inl ⟨rfl, rfl⟩
  | get r =>
    simp only [dispatch, handleGetApplication_eq, Outcome.ok.injEq] at h
    subst h
    exact Or.inl ⟨rfl, rfl⟩
  | delete r =>
    simp only [dispatch, handleDeleteApplication_eq, Outcome.ok.injEq] at h
    subst h
    exact Or.inl ⟨rfl, rfl⟩
  | create r =>
    simp only [dispatch] at h
    cases hb : readBody mem r with
    | panic => simp [handleCreateApplication, hb] at h
    | fatal => simp [handleCreateApplication, hb] at h
    | ok data =>
      cases hu : unmarshal data with
      | error err =>
        rw [handleCreateApplication_error mem unmarshal r data err hb hu] at h
        simp only [Outcome.ok.injEq] at h
        subst h
        refine Or.inr ⟨?_, rfl, rfl⟩
        simp [decodeFails, hb, hu]
      | ok req =>
        rw [handleCreateApplication_ok mem unmarshal r data req hb hu] at h
        simp only [Outcome.ok.injEq] at h
        subst h
        refine Or.inl ⟨?_, rfl⟩
        simp [decodeFails, hb, hu]

/-- The theorem `content_type_json_unless_decode_fails` at the health check. -/
theorem content_type_json_unless_decode_fails_witness :
    dispatch sampleMem sampleUnmarshal (.health (collectionRequest "GET" "default"))
        = .ok (jsonAnswer 200 (.raw "\x7b\"status\":\"ok\"\x7d"))
      ∧ ((decodeFails sampleMem sampleUnmarshal
              (.health (collectionRequest "GET" "default")) = false
            ∧ (jsonAnswer 200 (.raw "\x7b\"status\":\"ok\"\x7d")).contentType
                = some "application/json")
          ∨ (decodeFails sampleMem sampleUnmarshal
              (.health (collectionRequest "GET" "default")) = true
            ∧ (jsonAnswer 200 (.raw "\x7b\"status\":\"ok\"\x7d")).status
                = some StatusBadRequest
            ∧ (jsonAnswer 200 (.raw "\x7b\"status\":\"ok\"\x7d")).contentType
                = some "text/plain; charset=utf-8")) :=
  ⟨rfl, content_type_json_unless_decode_fails sampleMem sampleUnmarshal
    (.health (collectionRequest "GET" "default")) _ rfl⟩

/-- C9 fails on the code: a create request whose body is the text `not json` is rejected
by the decoder; the response has status 400 and Content-Type `text/plain; charset=utf-8`,
which is not `application/json`. -/
theorem create_decode_failure_text_plain :
    (dispatch sampleMem sampleUnmarshal
          (.create (postApplication "default" "not json"))).toOption.map
        (fun w => (w.status, w.contentType, w.body))
      = some (some StatusBadRequest, some "text/plain; charset=utf-8",
          [.raw "proto: syntax error\n"])
      ∧ "text/plain; charset=utf-8" ≠ "application/json" :=
  ⟨rfl, by decide⟩

/-! ## Reading the body -/

/-- C10, as the code behaves: `readBody` returns the empty byte sequence when the body is
nil; when a body is present and the declared ContentLength `n` is at least 0, at most the
largest length `make` accepts and at most the memory the process can obtain, it returns a
sequence of exactly `n` bytes: the bytes that one read of the body delivers, followed by
zero bytes. -/
theorem readBody_returns (mem : Nat) :
    (∀ r : Request, r.body = none → readBody mem r = .ok [])
      ∧ ∀ (r : Request) (b : Body), r.body = some b → 0 ≤ r.contentLength →
          r.contentLength ≤ (maxAlloc : Int) → r.contentLength ≤ (mem : Int) →
          ∃ data, readBody mem r = .ok data
            ∧ data.length = r.contentLength.toNat
            ∧ data = b.read r.contentLength.toNat
                ++ List.replicate
                    (r.contentLength.toNat - (b.read r.contentLength.toNat).length) 0 := by
  constructor
  · intro r hnil
    simp [readBody, hnil]
  · intro r b hb hlen hmax hmem
    have hle := b.read_le r.contentLength.toNat
    refine ⟨_, ?_, ?_, rfl⟩
    · simp only [readBody, hb, makeBytes_of_le mem _ hlen hmax hmem, List.length_replicate,
        copyInto_replicate]
    · simp only [List.length_append, List.length_replicate]
      omega

/-- The theorem `readBody_returns` at a request without body and at a request that
declares 5 bytes while the first read of its body delivers 3. -/
theorem readBody_returns_witness :
    readBody sampleMem { method := "GET", path := "/health", pathValues := [], body := none,
                         contentLength := 0 } = .ok []
      ∧ (0 : Int) ≤ 5
      ∧ (5 : Int) ≤ (maxAlloc : Int)
      ∧ (5 : Int) ≤ (sampleMem : Int)
      ∧ ∃ data,
          readBody sampleMem
              { method := "POST", path := "/api/v1/namespaces/default/applications",
                pathValues := [("namespace", "default")],
                body := some (Body.ofBytes [123, 125, 10]), contentLength := 5 }
            = .ok data
          ∧ data.length = (5 : Int).toNat
          ∧ data = (Body.ofBytes [123, 125, 10]).read (5 : Int).toNat
              ++ List.replicate
                  ((5 : Int).toNat - ((Body.ofBytes [123, 125, 10]).read (5 : Int).toNat).length)
                  0 :=
  ⟨(readBody_returns sampleMem).1 _ rfl, by decide, by decide, by decide,
    (readBody_returns sampleMem).2
      { method := "POST", path := "/api/v1/namespaces/default/applications",
        pathValues := [("namespace", "default")],
        body := some (Body.ofBytes [123, 125, 10]), contentLength := 5 }
      (Body.ofBytes [123, 125, 10]) rfl (by decide) (by decide) (by decide)⟩

/-- C10 fails on the code: with a body present, a declared ContentLength of `2^62`, a
non-negative `int64`, makes `make` panic, however much memory there is; and in a process
that can obtain 1 GiB a declared ContentLength of `2^34` (16 GiB) ends the process with
`out of memory`.  In neither case `readBody` returns. -/
theorem readBody_large_length_no_return :
    (0 : Int) ≤ 4611686018427387904
      ∧ (4611686018427387904 : Int) < 2 ^ 63
      ∧ readBody (2 ^ 63)
          { method := "POST", path := "/api/v1/namespaces/default/applications",
            pathValues := [("namespace", "default")],
            body := some (Body.ofBytes [123, 125]),
            contentLength := 4611686018427387904 } = .panic
      ∧ (0 : Int) ≤ 17179869184
      ∧ readBody sampleMem
          { method := "POST", path := "/api/v1/namespaces/default/applications",
            pathValues := [("namespace", "default")],
            body := some (Body.ofBytes [123, 125]),
            contentLength := 17179869184 } = .fatal :=
  ⟨by decide, by decide, by decide, by decide, by decide⟩

end SparkProxy
